import Mathlib

/-!
Verification of the session-based git identity switcher ("gus"): a shallow
embedding of its auto-switch matcher (`src/auto_switch.rs`), its orchestration
layer (`src/gus.rs`) and its shell integration (`src/shell.rs`), together with
theorems settling the claims of the specification about them.

Modelling conventions:
* Paths and environment-variable values are `String`s (the code matches on the
  lossy string form of paths anyway).
* The external glob library (`glob::Pattern`) is not part of this repository;
  it is abstracted as a compilation function `String → Option (String → Bool)`
  (`none` models a pattern parse error, `some m` the compiled matcher), carried
  in a `MatchEnv` together with the result of `dirs::home_dir()`.  Every
  structural theorem below holds for an arbitrary such library; concrete test
  instances that agree with the real library on metacharacter-free patterns are
  used to evaluate the theorems on closed inputs.
* File persistence (`Config::save`) is modelled as updating a `persistedConfig`
  copy held in the state, and the per-session script file as a `session` field.
-/

namespace Gus

/-- One registered identity, from `src/user.rs` (`struct User`). -/
structure User where
  id : String
  name : String
  email : String
  sshkey_path : Option String
deriving DecidableEq, Repr

/-- The identity registry, from `src/user.rs` (`struct Users`): a map from id
to `User`.  The `HashMap<String, User>` is embedded as a list of users looked
up by their `id` field; the operations used by the code under verification are
`exists` (`contains_key`) and `get`. -/
abbrev Users := List User

/-- `Users::exists`, from `src/user.rs`: `self.hashmap.contains_key(id)`. -/
def Users.exists (users : Users) (id : String) : Bool :=
  users.any (fun u => u.id == id)

/-- `Users::get`, from `src/user.rs`: `self.hashmap.get(id)`. -/
def Users.get (users : Users) (id : String) : Option User :=
  users.find? (fun u => u.id == id)

/-- One auto-switch rule, from `src/config.rs` (`struct AutoSwitchPattern`). -/
structure AutoSwitchPattern where
  pattern : String
  user_id : String
deriving DecidableEq, Repr

/-- The configuration, from `src/config.rs` (`struct Config`), restricted to
the fields read or written by the operations under verification; the remaining
fields (ssh-key type, rounds, passphrase length, file paths, `force_use_gus`)
are only consumed by the excluded key-generation and CLI collaborators. -/
structure Config where
  auto_switch_enabled : Bool
  auto_switch_patterns : List AutoSwitchPattern
  default_sshkey_dir : String
deriving DecidableEq, Repr

/-- The ambient facts the matcher reads from outside the repository: the glob
library (`glob::Pattern::new` fused with `Pattern::matches`: `none` is a
pattern parse error, `some m` the compiled matcher) and `dirs::home_dir()`. -/
structure MatchEnv where
  glob : String → Option (String → Bool)
  home : Option String

/-- Whether the first character of a string is `~`, embedding the Rust test
`path.starts_with` applied to the tilde character. -/
def strHeadIsTilde (s : String) : Bool :=
  s.data.head? == some '~'

/-- `AutoSwitcher::expand_tilde`, from `src/auto_switch.rs` lines 18-25: when
the pattern starts with `~` and the home directory resolves, replace the first
occurrence of `~` (which is the leading one) by the home directory
(`path.replacen` with the tilde, the home directory and count 1); otherwise
return the pattern unchanged. -/
def expand_tilde (home : Option String) (path : String) : String :=
  if strHeadIsTilde path then
    match home with
    | some h => h ++ String.mk path.data.tail
    | none => path
  else path

/-- The rule-scanning loop inside `AutoSwitcher::should_switch`, from
`src/auto_switch.rs` lines 34-44: for each rule in order, tilde-expand its
pattern, skip it when the glob fails to compile, skip it when the compiled
glob does not match the directory, skip it when its user id is not in the
registry, and otherwise return its user id. -/
def shouldSwitchGo (genv : MatchEnv) (users : Users) (dirStr : String) :
    List AutoSwitchPattern → Option String
  | [] => none
  | p :: rest =>
    match genv.glob (expand_tilde genv.home p.pattern) with
    | some m =>
      if m dirStr then
        if users.exists p.user_id then some p.user_id
        else shouldSwitchGo genv users dirStr rest
      else shouldSwitchGo genv users dirStr rest
    | none => shouldSwitchGo genv users dirStr rest

/-- `AutoSwitcher::should_switch`, from `src/auto_switch.rs` lines 27-47:
`none` when auto-switch is disabled, otherwise the result of the scan loop
over `config.auto_switch_patterns`. -/
def should_switch (genv : MatchEnv) (config : Config) (users : Users)
    (current_dir : String) : Option String :=
  if !config.auto_switch_enabled then none
  else shouldSwitchGo genv users current_dir config.auto_switch_patterns

/-- Glob matching as a single boolean: a pattern that fails to compile matches
nothing.  Used by the specification-side description of the matcher. -/
def globMatches (genv : MatchEnv) (pat dirStr : String) : Bool :=
  match genv.glob pat with
  | some m => m dirStr
  | none => false

/-- Specification-side restatement of the matcher contract (spec §4.1 /
§8): the user id of the first rule, in list order, whose tilde-expanded
pattern glob-matches the directory and whose user id exists in the registry;
`none` when no rule satisfies both. -/
def spec_resolve (genv : MatchEnv) (rules : List AutoSwitchPattern)
    (users : Users) (dirStr : String) : Option String :=
  (rules.find? (fun r =>
      globMatches genv (expand_tilde genv.home r.pattern) dirStr
        && users.exists r.user_id)).map (fun r => r.user_id)

/-- The error taxonomy of spec §7 restricted to the errors the verified
operations can raise (`anyhow` errors in the code, classified by their
message). -/
inductive GusError where
  | UnknownIdentity
  | InvalidPattern
deriving DecidableEq, Repr

/-- Whether the first character of a string is `/`, embedding the Rust
`Path::is_absolute` test on Unix. -/
def strHeadIsSlash (s : String) : Bool :=
  s.data.head? == some '/'

/-- Whether the last character of a string is `/`. -/
def strLastIsSlash (s : String) : Bool :=
  s.data.getLast? == some '/'

/-- `PathBuf::join`/`push` on Unix, on the string form of paths: an absolute
right operand replaces the left; otherwise a `/` separator is inserted unless
the left operand is empty or already ends in `/`. -/
def pathJoin (dir file : String) : String :=
  if strHeadIsSlash file then file
  else if dir = "" || strLastIsSlash dir then dir ++ file
  else dir ++ "/" ++ file

/-- The ASCII character of a decimal digit (character code 48 plus the digit). -/
def digitChar10 (d : Nat) : Char :=
  Char.ofNat (48 + d)

/-- Fuel-driven most-significant-first decimal digit rendering; with fuel
above `n` it renders exactly the decimal digits of `n` (see `natDecAux_congr`
below). -/
def natDecAux : Nat → Nat → List Char
  | 0, _ => []
  | f + 1, n =>
    if n < 10 then [digitChar10 n]
    else natDecAux f (n / 10) ++ [digitChar10 (n % 10)]

/-- Decimal rendering of a natural number, embedding the Rust default decimal
formatting of an unsigned integer. -/
def natDecimal (n : Nat) : String :=
  String.mk (natDecAux (n + 1) n)

/-- `get_session_script_path`, from `src/shell.rs` lines 20-24:
the temp directory, joined with the file name of the current executable,
joined with the file named by appending the decimal parent process id between
the literal pieces session and .sh; stated as a function of the temp root,
the executable file name and the parent process id. -/
def get_session_script_path (tmpDir exeFileName : String) (ppid : Nat) : String :=
  pathJoin (pathJoin tmpDir exeFileName) ("session" ++ natDecimal ppid ++ ".sh")

/-- The ambient process facts `src/shell.rs` reads: `env::temp_dir()`, the
file name and full path of the current executable, `env::args().next()` (the
invocation name) and `parent_id()`. -/
structure ShellEnv where
  tmpDir : String
  exeFileName : String
  appName : String
  appPath : String
  ppid : Nat

/-- The session-script path of a `ShellEnv`. -/
def ShellEnv.sessionPath (env : ShellEnv) : String :=
  get_session_script_path env.tmpDir env.exeFileName env.ppid

/-- `get_setup_script`, from `src/shell.rs` lines 51-73: the literal setup
text (Rust line-continuation backslashes strip all indentation, so each
fragment abuts the next), with the injected `script` fragment between the
wrapper function and the closing `fi`. -/
def get_setup_script (env : ShellEnv) (script : String) : String :=
  "if [ -z $\x7bGUS_LOADED_FLAG\x7d ]; then\n"
    ++ "export GUS_LOADED_FLAG=1\n"
    ++ "rm -f \"" ++ env.sessionPath ++ "\"\n"
    ++ "function " ++ env.appName ++ "() \x7b\n"
    ++ "\"" ++ env.appPath ++ "\" \"$@\"\n"
    ++ "status=$?\n"
    ++ "if [ $status -ne 0 ]; then\n"
    ++ "return $status\n"
    ++ "fi\n"
    ++ "source \"" ++ env.sessionPath ++ "\"\n"
    ++ "\x7d\n"
    ++ script
    ++ "fi\n"

/-- Specification-side guard shape (spec §4.4 item 1): the body is wrapped in
a test on the well-known flag variable, set at the start of the body, so
sourcing the text a second time executes nothing. -/
def guard_wrap (flag body : String) : String :=
  "if [ -z $\x7b" ++ flag ++ "\x7d ]; then\n"
    ++ "export " ++ flag ++ "=1\n"
    ++ body
    ++ "fi\n"

/-- Specification-side wrapper-function shape (spec §4.4 item 3): a function
bound to the invocation name of the tool that forwards all arguments to the real
executable, captures its exit status, returns that status without sourcing
when it is non-zero, and sources the session-channel file otherwise. -/
def wrapper_fn (appName appPath sessionPath : String) : String :=
  "function " ++ appName ++ "() \x7b\n"
    ++ "\"" ++ appPath ++ "\" \"$@\"\n"
    ++ "status=$?\n"
    ++ "if [ $status -ne 0 ]; then\n"
    ++ "return $status\n"
    ++ "fi\n"
    ++ "source \"" ++ sessionPath ++ "\"\n"
    ++ "\x7d\n"

/-- `User::get_sshkey_path`, from `src/user.rs` lines 35-41: the explicit
`sshkey_path` when present, otherwise the default key directory joined with
`get_sshkey_name()`, whose `sshkey_path == None` branch is `"id_" + id`
(the `Some` branch of `get_sshkey_name` is unreachable from here and is
inlined away). -/
def User.get_sshkey_path (u : User) (default_sshkey_dir : String) : String :=
  match u.sshkey_path with
  | some p => p
  | none => pathJoin default_sshkey_dir ("id_" ++ u.id)

/-- The session script built by `GitUserSwitcher::switch_user`, from
`src/gus.rs` lines 96-111: the formatting template with the fields of the
user spliced in (note `name` and `email` are each used twice). -/
def switch_script (u : User) (default_sshkey_dir : String) : String :=
  "export GUS_USER_ID=\"" ++ u.id ++ "\"\n"
    ++ "export GIT_AUTHOR_NAME=\"" ++ u.name ++ "\"\n"
    ++ "export GIT_AUTHOR_EMAIL=\"" ++ u.email ++ "\"\n"
    ++ "export GIT_COMMITTER_NAME=\"" ++ u.name ++ "\"\n"
    ++ "export GIT_COMMITTER_EMAIL=\"" ++ u.email ++ "\"\n"
    ++ "export GIT_SSH_COMMAND=\"ssh -i "
    ++ User.get_sshkey_path u default_sshkey_dir
    ++ " -F /dev/null\"\n"

/-- One `export KEY="value"` line, the unit of the session-script template. -/
def exportLine (key value : String) : String :=
  "export " ++ key ++ "=\"" ++ value ++ "\"\n"

/-- Specification-side restatement of the session script: six lines of the
fixed `export KEY="value"` template carrying the active id, git author and
committer name/email, and the ssh command naming the key path of the identity,
each value spliced verbatim. -/
def spec_switch_script (u : User) (default_sshkey_dir : String) : String :=
  exportLine "GUS_USER_ID" u.id
    ++ exportLine "GIT_AUTHOR_NAME" u.name
    ++ exportLine "GIT_AUTHOR_EMAIL" u.email
    ++ exportLine "GIT_COMMITTER_NAME" u.name
    ++ exportLine "GIT_COMMITTER_EMAIL" u.email
    ++ exportLine "GIT_SSH_COMMAND"
        ("ssh -i " ++ User.get_sshkey_path u default_sshkey_dir ++ " -F /dev/null")

/-- The in-memory and on-disk state a `GitUserSwitcher` owns (`src/gus.rs`):
the registry, the live configuration, the configuration as last persisted
(`Config::save` is embedded as copying the live configuration here), and the
content of the session-channel file (`none` before any write). -/
structure GusState where
  users : Users
  config : Config
  persistedConfig : Config
  session : Option String
deriving DecidableEq, Repr

/-- `GitUserSwitcher::switch_user`, from `src/gus.rs` lines 88-116: fail with
`UnknownIdentity` when the id is not registered, otherwise render the export
script for the user and write it to the session channel.  The pair
`ensure!(exists) ... get(id).unwrap()` of the source is embedded as a single
match on `get`, justified by `Users.exists_eq_isSome_get` below. -/
def switch_user (st : GusState) (id : String) : GusState × Except GusError Unit :=
  match st.users.get id with
  | none => (st, Except.error GusError.UnknownIdentity)
  | some user =>
    ({ st with
        session := some (switch_script user st.config.default_sshkey_dir) },
      Except.ok ())

/-- `GitUserSwitcher::get_current_user`, from `src/gus.rs` lines 118-121:
look up the value of the `GUS_USER_ID` environment variable (the empty string
when unset, per `unwrap_or_default`) in the registry. -/
def get_current_user (users : Users) (gusUserId : Option String) : Option User :=
  users.get (gusUserId.getD "")

/-- `GitUserSwitcher::add_auto_switch_pattern`, from `src/gus.rs` lines
158-172: fail with `UnknownIdentity` when the user id is not registered, fail
with `InvalidPattern` when the glob does not compile, otherwise push the
verbatim pattern onto the rule list and persist the configuration. -/
def add_auto_switch_pattern (genv : MatchEnv) (st : GusState)
    (pattern user_id : String) : GusState × Except GusError Unit :=
  if st.users.exists user_id = false then
    (st, Except.error GusError.UnknownIdentity)
  else
    match genv.glob pattern with
    | none => (st, Except.error GusError.InvalidPattern)
    | some _ =>
      let config :=
        { st.config with
            auto_switch_patterns :=
              st.config.auto_switch_patterns ++ [⟨pattern, user_id⟩] }
      ({ st with config := config, persistedConfig := config }, Except.ok ())

/-- `GitUserSwitcher::remove_auto_switch_pattern`, from `src/gus.rs` lines
174-182: retain the rules whose pattern differs from the argument, report
whether the length changed, and persist only when it did. -/
def remove_auto_switch_pattern (st : GusState) (pattern : String) :
    GusState × Except GusError Bool :=
  let initial_len := st.config.auto_switch_patterns.length
  let config :=
    { st.config with
        auto_switch_patterns :=
          st.config.auto_switch_patterns.filter (fun p => p.pattern != pattern) }
  let removed := initial_len != config.auto_switch_patterns.length
  if removed then
    ({ st with config := config, persistedConfig := config }, Except.ok true)
  else
    ({ st with config := config }, Except.ok false)

/-! ## Helper lemmas -/

/-- In the list embedding of the registry, `contains_key` agrees with
`get(..).is_some()`; this justifies embedding the source pair
`ensure!(exists) ... get(id).unwrap()` as a single match on `get`. -/
theorem Users.exists_eq_isSome_get (users : Users) (id : String) :
    users.exists id = (users.get id).isSome := by
  induction users with
  | nil => rfl
  | cons u us ih =>
    simp only [Users.exists, Users.get, List.any_cons] at *
    by_cases h : (u.id == id) = true
    · simp [List.find?_cons_of_pos _ h, h]
    · rw [List.find?_cons_of_neg (p := fun v => v.id == id) us h]
      simp [h, ih]

/-- String append is associative (restated over the character data). -/
theorem strAppend_assoc (a b c : String) : a ++ b ++ c = a ++ (b ++ c) :=
  String.append_assoc a b c

/-- The scan loop of `should_switch` is first-match search: it returns the
user id of the first rule whose expanded pattern matches and whose user
exists. -/
theorem shouldSwitchGo_eq_find (genv : MatchEnv) (users : Users)
    (dirStr : String) (rules : List AutoSwitchPattern) :
    shouldSwitchGo genv users dirStr rules
      = (rules.find? (fun r =>
            globMatches genv (expand_tilde genv.home r.pattern) dirStr
              && users.exists r.user_id)).map (fun r => r.user_id) := by
  induction rules with
  | nil => rfl
  | cons p rest ih =>
    simp only [shouldSwitchGo]
    cases hg : genv.glob (expand_tilde genv.home p.pattern) with
    | none =>
      dsimp only
      rw [List.find?_cons_of_neg _ (by simp [globMatches, hg])]
      exact ih
    | some m =>
      dsimp only
      cases hm : m dirStr with
      | false =>
        rw [if_neg (by simp)]
        rw [List.find?_cons_of_neg _ (by simp [globMatches, hg, hm])]
        exact ih
      | true =>
        rw [if_pos rfl]
        cases he : users.exists p.user_id with
        | false =>
          rw [if_neg (by simp)]
          rw [List.find?_cons_of_neg _ (by simp [globMatches, hg, hm, he])]
          exact ih
        | true =>
          rw [if_pos rfl, List.find?_cons_of_pos _ (by simp [globMatches, hg, hm, he])]
          rfl

/-! ## Concrete test instances used to evaluate the theorems -/

/-- A concrete glob library instance: the single pattern `[` fails to compile
(as it does in the real library, an unclosed character class), and every other
pattern matches exactly itself.  On metacharacter-free patterns this agrees
with the real library, whose patterns without `*`, `?` and `[` match only
their own literal text. -/
def testGlob : String → Option (String → Bool) :=
  fun pat => if pat == "[" then none else some (fun s => pat == s)

/-- A concrete environment whose home directory resolves to `/home/u`. -/
def testEnv : MatchEnv := ⟨testGlob, some "/home/u"⟩

/-- A concrete environment whose home directory is unresolvable. -/
def testEnvNoHome : MatchEnv := ⟨testGlob, none⟩

/-! ## Claim C1 -/

/-- Claim C1: with auto-switch enabled, `should_switch` returns the user id of
the first rule in list order whose tilde-expanded pattern glob-matches the
directory string and whose user id exists in the registry; a rule whose
pattern matches but whose user is missing is skipped, and the result is `none`
when no rule satisfies both conditions (this is `spec_resolve`, the literal
first-match contract). -/
theorem should_switch_first_match (genv : MatchEnv) (config : Config)
    (users : Users) (dir : String) (h : config.auto_switch_enabled = true) :
    should_switch genv config users dir
      = spec_resolve genv config.auto_switch_patterns users dir := by
  simp [should_switch, h, shouldSwitchGo_eq_find, spec_resolve]

/-- Witness for C1 on closed input: two rules, the first of which glob-matches
the directory but names an unregistered user and is therefore skipped in
favour of the second. -/
theorem should_switch_first_match_witness :
    (⟨true, [⟨"~/w", "ghost"⟩, ⟨"/home/u/w", "u"⟩], "/k"⟩ : Config).auto_switch_enabled = true
    ∧ should_switch testEnv
        ⟨true, [⟨"~/w", "ghost"⟩, ⟨"/home/u/w", "u"⟩], "/k"⟩
        [⟨"u", "N", "e", none⟩] "/home/u/w"
      = spec_resolve testEnv [⟨"~/w", "ghost"⟩, ⟨"/home/u/w", "u"⟩]
          [⟨"u", "N", "e", none⟩] "/home/u/w"
    ∧ should_switch testEnv
        ⟨true, [⟨"~/w", "ghost"⟩, ⟨"/home/u/w", "u"⟩], "/k"⟩
        [⟨"u", "N", "e", none⟩] "/home/u/w" = some "u" :=
  ⟨rfl,
   should_switch_first_match testEnv
     ⟨true, [⟨"~/w", "ghost"⟩, ⟨"/home/u/w", "u"⟩], "/k"⟩
     [⟨"u", "N", "e", none⟩] "/home/u/w" rfl,
   by decide⟩

/-! ## Claims C9 and C3: rules that contribute nothing to the scan -/

/-- With an unresolvable home directory, tilde expansion is the identity: the
pattern is kept verbatim, leading `~` included. -/
theorem expand_tilde_none (p : String) : expand_tilde none p = p := by
  unfold expand_tilde
  cases strHeadIsTilde p <;> simp

/-- A rule whose expanded pattern does not glob-match the directory, or whose
user id is not registered, can be deleted from the rule list without changing
the result of the scan. -/
theorem shouldSwitchGo_skip (genv : MatchEnv) (users : Users) (dirStr : String)
    (pre post : List AutoSwitchPattern) (r : AutoSwitchPattern)
    (h : (globMatches genv (expand_tilde genv.home r.pattern) dirStr
            && users.exists r.user_id) = false) :
    shouldSwitchGo genv users dirStr (pre ++ r :: post)
      = shouldSwitchGo genv users dirStr (pre ++ post) := by
  rw [shouldSwitchGo_eq_find, shouldSwitchGo_eq_find, List.find?_append,
    List.find?_append, List.find?_cons_of_neg post (by simp [h])]

/-- Claim C9: a stored rule whose pattern has invalid glob syntax (its
compilation fails) never makes `should_switch` fail: the rule is treated as
never matching and evaluation proceeds exactly as if the rule were absent,
for every configuration, registry and directory. -/
theorem invalid_pattern_rule_skipped (genv : MatchEnv) (config : Config)
    (users : Users) (dir : String) (pre post : List AutoSwitchPattern)
    (r : AutoSwitchPattern)
    (hg : genv.glob (expand_tilde genv.home r.pattern) = none)
    (hcfg : config.auto_switch_patterns = pre ++ r :: post) :
    should_switch genv config users dir
      = should_switch genv { config with auto_switch_patterns := pre ++ post }
          users dir := by
  unfold should_switch
  cases he : config.auto_switch_enabled with
  | false => simp [he]
  | true =>
    simp only [he, Bool.not_true, Bool.false_eq_true, if_false, hcfg]
    exact shouldSwitchGo_skip genv users dir pre post r (by simp [globMatches, hg])

/-- Witness for C9 on closed input: the pattern `[` of the first stored rule is an
unclosed character class the glob library rejects; the scan skips it and the
second rule still fires. -/
theorem invalid_pattern_rule_skipped_witness :
    testEnv.glob (expand_tilde testEnv.home "[") = none
    ∧ should_switch testEnv ⟨true, [⟨"[", "u"⟩, ⟨"/d", "u"⟩], "/k"⟩
        [⟨"u", "N", "e", none⟩] "/d"
      = should_switch testEnv ⟨true, [⟨"/d", "u"⟩], "/k"⟩
          [⟨"u", "N", "e", none⟩] "/d"
    ∧ should_switch testEnv ⟨true, [⟨"[", "u"⟩, ⟨"/d", "u"⟩], "/k"⟩
        [⟨"u", "N", "e", none⟩] "/d" = some "u" :=
  ⟨rfl,
   invalid_pattern_rule_skipped testEnv ⟨true, [⟨"[", "u"⟩, ⟨"/d", "u"⟩], "/k"⟩
     [⟨"u", "N", "e", none⟩] "/d" [] [⟨"/d", "u"⟩] ⟨"[", "u"⟩ rfl rfl,
   by decide⟩

/-- A glob library treats a leading `~` literally when a compiled pattern
whose text begins with `~` only ever matches strings that themselves begin
with `~`.  The real library has this property: `~` is not a glob
metacharacter, so a leading `~` is a literal-character token that must equal
the first character of the matched string. -/
def TildeLiteral (genv : MatchEnv) : Prop :=
  ∀ pat m s, strHeadIsTilde pat = true → genv.glob pat = some m →
    m s = true → strHeadIsTilde s = true

/-- Claim C3 (amended): when the home directory is unresolvable, a rule whose
pattern begins with `~` keeps that literal `~` (no expansion, no error), so
against any glob library that treats the leading `~` literally it matches only
directories whose own string form begins with `~`; for every other directory
(in particular every absolute path the caller ever passes) the rule is never
selected and scanning proceeds as if it were absent. -/
theorem unresolvable_home_tilde_rule_never_selected (genv : MatchEnv)
    (config : Config) (users : Users) (dir : String)
    (pre post : List AutoSwitchPattern) (r : AutoSwitchPattern)
    (hhome : genv.home = none)
    (hlit : TildeLiteral genv)
    (hr : strHeadIsTilde r.pattern = true)
    (hdir : strHeadIsTilde dir = false)
    (hcfg : config.auto_switch_patterns = pre ++ r :: post) :
    should_switch genv config users dir
      = should_switch genv { config with auto_switch_patterns := pre ++ post }
          users dir := by
  have hglob : globMatches genv (expand_tilde genv.home r.pattern) dir = false := by
    rw [hhome, expand_tilde_none]
    unfold globMatches
    cases hg : genv.glob r.pattern with
    | none => rfl
    | some m =>
      cases hm : m dir with
      | false => simp [hm]
      | true => exact absurd (hlit r.pattern m dir hr hg hm) (by simp [hdir])
  unfold should_switch
  cases he : config.auto_switch_enabled with
  | false => simp [he]
  | true =>
    simp only [he, Bool.not_true, Bool.false_eq_true, if_false, hcfg]
    exact shouldSwitchGo_skip genv users dir pre post r (by simp [hglob])

/-- The concrete test glob library treats a leading tilde literally, as the
real library does. -/
theorem testGlob_tildeLiteral : TildeLiteral testEnvNoHome := by
  intro pat m s hpat hglob hms
  unfold testEnvNoHome testGlob at hglob
  by_cases h : (pat == "[") = true
  · simp [h] at hglob
  · simp only [h, if_false, Bool.false_eq_true, Option.some.injEq] at hglob
    rw [← hglob] at hms
    simp only [beq_iff_eq] at hms
    rw [← hms]
    exact hpat

/-- Witness for C3 on closed input: with home unresolvable, the tilde rule is
skipped for the absolute directory `/d` and the later rule still fires. -/
theorem unresolvable_home_tilde_rule_never_selected_witness :
    testEnvNoHome.home = none
    ∧ strHeadIsTilde "~/w" = true
    ∧ strHeadIsTilde "/d" = false
    ∧ should_switch testEnvNoHome ⟨true, [⟨"~/w", "u"⟩, ⟨"/d", "u"⟩], "/k"⟩
        [⟨"u", "N", "e", none⟩] "/d"
      = should_switch testEnvNoHome ⟨true, [⟨"/d", "u"⟩], "/k"⟩
          [⟨"u", "N", "e", none⟩] "/d"
    ∧ should_switch testEnvNoHome ⟨true, [⟨"~/w", "u"⟩, ⟨"/d", "u"⟩], "/k"⟩
        [⟨"u", "N", "e", none⟩] "/d" = some "u" :=
  ⟨rfl, rfl, rfl,
   unresolvable_home_tilde_rule_never_selected testEnvNoHome
     ⟨true, [⟨"~/w", "u"⟩, ⟨"/d", "u"⟩], "/k"⟩ [⟨"u", "N", "e", none⟩] "/d"
     [] [⟨"/d", "u"⟩] ⟨"~/w", "u"⟩ rfl testGlob_tildeLiteral rfl rfl rfl,
   by decide⟩

/-- Counterexample to claim C3 as stated ("treated as not matching any
directory"): with home unresolvable, the rule pattern `~/w` is kept verbatim,
and it still glob-matches the directory whose string form is literally `~/w`
(the test library agrees with the real one here, since `~/w` contains no glob
metacharacter), so the rule IS selected for that directory. -/
theorem unresolvable_home_tilde_rule_counterexample :
    testEnvNoHome.home = none
    ∧ should_switch testEnvNoHome ⟨true, [⟨"~/w", "u"⟩], "/k"⟩
        [⟨"u", "N", "e", none⟩] "~/w" = some "u" := by
  exact ⟨rfl, by decide⟩

/-! ## Claim C2: removing a rule by pattern -/

/-- Claim C2 (amended): removal by exact pattern string removes every entry
whose pattern equals the argument (the source uses `retain`, so duplicates are
all removed at once); when no entry has that pattern it returns `Ok(false)`
and the whole state, persisted configuration included, is unchanged; when at
least one entry has it, it returns `Ok(true)` and persists the new list. -/
theorem remove_pattern_removes_all (st : GusState) (pattern : String) :
    ((remove_auto_switch_pattern st pattern).1.config.auto_switch_patterns
        = st.config.auto_switch_patterns.filter (fun p => p.pattern != pattern))
    ∧ ((∀ p ∈ st.config.auto_switch_patterns, p.pattern ≠ pattern) →
        remove_auto_switch_pattern st pattern = (st, Except.ok false))
    ∧ ((∃ p ∈ st.config.auto_switch_patterns, p.pattern = pattern) →
        (remove_auto_switch_pattern st pattern).2 = Except.ok true
        ∧ (remove_auto_switch_pattern st pattern).1.persistedConfig
            = (remove_auto_switch_pattern st pattern).1.config) := by
  refine ⟨?_, ?_, ?_⟩
  · unfold remove_auto_switch_pattern
    by_cases hr : (st.config.auto_switch_patterns.length
        != (st.config.auto_switch_patterns.filter
              (fun p => p.pattern != pattern)).length) = true
    · simp [hr]
    · simp [hr]
  · intro hall
    have hfilter : st.config.auto_switch_patterns.filter
        (fun p => p.pattern != pattern) = st.config.auto_switch_patterns :=
      List.filter_eq_self.mpr (fun a ha => by simp [bne_iff_ne]; exact hall a ha)
    unfold remove_auto_switch_pattern
    simp [hfilter]
  · rintro ⟨p, hp, hpeq⟩
    have hlt : (st.config.auto_switch_patterns.filter
          (fun q => q.pattern != pattern)).length
        < st.config.auto_switch_patterns.length :=
      List.length_filter_lt_length_iff_exists.mpr ⟨p, hp, by simp [hpeq]⟩
    have hr : (st.config.auto_switch_patterns.length
        != (st.config.auto_switch_patterns.filter
              (fun q => q.pattern != pattern)).length) = true := by
      simp only [bne_iff_ne, ne_eq]
      omega
    unfold remove_auto_switch_pattern
    simp [hr]

/-- Witness for C2 on closed input: one matching entry is present, removal
returns true and drops it; removing a pattern that is absent returns false and
leaves the state untouched. -/
theorem remove_pattern_removes_all_witness :
    ((remove_auto_switch_pattern
        ⟨[⟨"u", "N", "e@x", none⟩], ⟨true, [⟨"/p", "u"⟩], "/k"⟩,
          ⟨true, [⟨"/p", "u"⟩], "/k"⟩, none⟩ "/p").2 = Except.ok true)
    ∧ ((remove_auto_switch_pattern
        ⟨[⟨"u", "N", "e@x", none⟩], ⟨true, [⟨"/p", "u"⟩], "/k"⟩,
          ⟨true, [⟨"/p", "u"⟩], "/k"⟩, none⟩ "/p").1.config.auto_switch_patterns = [])
    ∧ (remove_auto_switch_pattern
        ⟨[⟨"u", "N", "e@x", none⟩], ⟨true, [⟨"/p", "u"⟩], "/k"⟩,
          ⟨true, [⟨"/p", "u"⟩], "/k"⟩, none⟩ "/q"
        = (⟨[⟨"u", "N", "e@x", none⟩], ⟨true, [⟨"/p", "u"⟩], "/k"⟩,
            ⟨true, [⟨"/p", "u"⟩], "/k"⟩, none⟩, Except.ok false)) :=
  ⟨((remove_pattern_removes_all
      ⟨[⟨"u", "N", "e@x", none⟩], ⟨true, [⟨"/p", "u"⟩], "/k"⟩,
        ⟨true, [⟨"/p", "u"⟩], "/k"⟩, none⟩ "/p").2.2
      ⟨⟨"/p", "u"⟩, by decide, rfl⟩).1,
   by decide,
   (remove_pattern_removes_all
      ⟨[⟨"u", "N", "e@x", none⟩], ⟨true, [⟨"/p", "u"⟩], "/k"⟩,
        ⟨true, [⟨"/p", "u"⟩], "/k"⟩, none⟩ "/q").2.1 (by decide)⟩

/-- Counterexample to claim C2 as stated ("removes exactly one entry when at
least one entry with that pattern is present"): with two stored rules carrying
the same pattern (duplicates are addable, since insertion never deduplicates),
one removal call deletes both, leaving zero of the initial two entries. -/
theorem remove_pattern_counterexample :
    ((remove_auto_switch_pattern
        ⟨[⟨"u", "N", "e@x", none⟩], ⟨true, [⟨"/p", "u"⟩, ⟨"/p", "u"⟩], "/k"⟩,
          ⟨true, [⟨"/p", "u"⟩, ⟨"/p", "u"⟩], "/k"⟩, none⟩ "/p").1.config.auto_switch_patterns.length = 0)
    ∧ ((⟨true, [⟨"/p", "u"⟩, ⟨"/p", "u"⟩], "/k"⟩ : Config).auto_switch_patterns.length = 2) := by
  exact ⟨by decide, by decide⟩

/-! ## Claim C4: adding a rule -/

/-- Claim C4: adding a rule fails with `UnknownIdentity` when the user id is
not registered and with `InvalidPattern` when the glob does not compile, and
in both failure cases the whole state (rule list included) is unchanged; on
success the pattern string is appended verbatim, leading `~` included. -/
theorem add_pattern_validation (genv : MatchEnv) (st : GusState)
    (pattern user_id : String) (m : String → Bool) :
    (st.users.exists user_id = false →
        add_auto_switch_pattern genv st pattern user_id
          = (st, Except.error GusError.UnknownIdentity))
    ∧ (st.users.exists user_id = true → genv.glob pattern = none →
        add_auto_switch_pattern genv st pattern user_id
          = (st, Except.error GusError.InvalidPattern))
    ∧ (st.users.exists user_id = true → genv.glob pattern = some m →
        add_auto_switch_pattern genv st pattern user_id
          = ({ st with
                config := { st.config with
                  auto_switch_patterns :=
                    st.config.auto_switch_patterns ++ [⟨pattern, user_id⟩] },
                persistedConfig := { st.config with
                  auto_switch_patterns :=
                    st.config.auto_switch_patterns ++ [⟨pattern, user_id⟩] } },
              Except.ok ())) :=
  ⟨fun h => by simp [add_auto_switch_pattern, h],
   fun h hg => by simp [add_auto_switch_pattern, h, hg],
   fun h hg => by simp [add_auto_switch_pattern, h, hg]⟩

/-- Shared closed registry and state for the witnesses: one user `u`, empty
rule list. -/
def wtState : GusState :=
  ⟨[⟨"u", "N", "e@x", none⟩], ⟨false, [], "/keys"⟩, ⟨false, [], "/keys"⟩, none⟩

/-- Witness for C4 on closed input: unknown user rejected, unclosed character
class rejected, and a tilde pattern appended verbatim. -/
theorem add_pattern_validation_witness :
    wtState.users.exists "ghost" = false
    ∧ add_auto_switch_pattern testEnv wtState "~/w" "ghost"
        = (wtState, Except.error GusError.UnknownIdentity)
    ∧ testEnv.glob "[" = none
    ∧ add_auto_switch_pattern testEnv wtState "[" "u"
        = (wtState, Except.error GusError.InvalidPattern)
    ∧ add_auto_switch_pattern testEnv wtState "~/w" "u"
        = ({ wtState with
              config := { wtState.config with
                auto_switch_patterns := [⟨"~/w", "u"⟩] },
              persistedConfig := { wtState.config with
                auto_switch_patterns := [⟨"~/w", "u"⟩] } },
            Except.ok ()) :=
  ⟨by decide,
   (add_pattern_validation testEnv wtState "~/w" "ghost" (fun _ => true)).1 (by decide),
   rfl,
   (add_pattern_validation testEnv wtState "[" "u" (fun _ => true)).2.1 (by decide) rfl,
   (add_pattern_validation testEnv wtState "~/w" "u"
     (fun s => ("~/w" == s))).2.2 (by decide) rfl⟩

/-! ## Claim C5: switching to an unknown identity -/

/-- Claim C5: `switch_user` fails with `UnknownIdentity` whenever the id is
absent from the registry, and in that case the state is returned untouched: in
particular the session channel is not written, so a previously exported
identity is left as it was. -/
theorem switch_user_unknown (st : GusState) (id : String)
    (h : st.users.exists id = false) :
    switch_user st id = (st, Except.error GusError.UnknownIdentity) := by
  have hget : st.users.get id = none := by
    have he := Users.exists_eq_isSome_get st.users id
    rw [h] at he
    exact Option.not_isSome_iff_eq_none.mp (by simp [← he])
  simp [switch_user, hget]

/-- Witness for C5 on closed input, with a previously written session script
left in place untouched. -/
theorem switch_user_unknown_witness :
    (⟨[⟨"u", "N", "e@x", none⟩], ⟨false, [], "/keys"⟩, ⟨false, [], "/keys"⟩,
        some "export GUS_USER_ID=\"u\"\n"⟩ : GusState).users.exists "missing" = false
    ∧ switch_user
        ⟨[⟨"u", "N", "e@x", none⟩], ⟨false, [], "/keys"⟩, ⟨false, [], "/keys"⟩,
          some "export GUS_USER_ID=\"u\"\n"⟩ "missing"
      = (⟨[⟨"u", "N", "e@x", none⟩], ⟨false, [], "/keys"⟩, ⟨false, [], "/keys"⟩,
          some "export GUS_USER_ID=\"u\"\n"⟩, Except.error GusError.UnknownIdentity) :=
  ⟨by decide,
   switch_user_unknown
     ⟨[⟨"u", "N", "e@x", none⟩], ⟨false, [], "/keys"⟩, ⟨false, [], "/keys"⟩,
       some "export GUS_USER_ID=\"u\"\n"⟩ "missing" (by decide)⟩

/-! ## Claim C8: reading back the current identity -/

/-- Claim C8 (amended): for a registered id, switching writes the export
script and reading the current identity with the environment variable set to
that id yields the record of that identity; reading yields `none` whenever the
variable names an id absent from the registry, and whenever the variable is
unset provided no registered identity has the empty-string id (an unset
variable is read back as the empty string by `unwrap_or_default`). -/
theorem current_user_round_trip (st : GusState) (id : String) (user : User)
    (users : Users) :
    (st.users.get id = some user →
        switch_user st id
            = ({ st with
                  session :=
                    some (switch_script user st.config.default_sshkey_dir) },
                Except.ok ())
          ∧ get_current_user st.users (some id) = some user)
    ∧ (users.get id = none → get_current_user users (some id) = none)
    ∧ (users.exists "" = false → get_current_user users none = none) := by
  refine ⟨fun h => ⟨by simp [switch_user, h], by simp [get_current_user, h]⟩,
          fun h => by simp [get_current_user, h],
          fun h => ?_⟩
  have hget : users.get "" = none := by
    have he := Users.exists_eq_isSome_get users ""
    rw [h] at he
    exact Option.not_isSome_iff_eq_none.mp (by simp [← he])
  simp [get_current_user, hget]

/-- Witness for C8 on closed input: the round trip yields the record of the
switched user, an absent id reads back as no current identity, and so does an unset
variable over a registry with no empty id. -/
theorem current_user_round_trip_witness :
    wtState.users.get "u" = some ⟨"u", "N", "e@x", none⟩
    ∧ get_current_user wtState.users (some "u") = some ⟨"u", "N", "e@x", none⟩
    ∧ get_current_user wtState.users (some "missing") = none
    ∧ get_current_user wtState.users none = none :=
  ⟨rfl,
   ((current_user_round_trip wtState "u" ⟨"u", "N", "e@x", none⟩ wtState.users).1 rfl).2,
   (current_user_round_trip wtState "missing" ⟨"u", "N", "e@x", none⟩
      wtState.users).2.1 (by decide),
   (current_user_round_trip wtState "" ⟨"u", "N", "e@x", none⟩
      wtState.users).2.2 (by decide)⟩

/-- Counterexample to claim C8 as stated ("`get_current_user` returns none
whenever the environment variable is unset"): `unwrap_or_default` turns an
unset variable into the empty string, so a registry containing an identity
whose id is the empty string is reported as the current identity even though
no switch ever happened. -/
theorem current_user_unset_counterexample :
    get_current_user [⟨"", "Ghost", "g@x", none⟩] none
      = some ⟨"", "Ghost", "g@x", none⟩ := by
  decide

/-! ## Claim C10: the session script template -/

/-- The session script built by `switch_user` is exactly the six-line
`export KEY="value"` template, values spliced verbatim. -/
theorem switch_script_eq_spec (u : User) (d : String) :
    switch_script u d = spec_switch_script u d := by
  apply String.ext
  simp only [switch_script, spec_switch_script, exportLine, String.data_append,
    List.append_assoc]
  rfl

/-- Claim C10: for a registered id, the script handed to the session channel
is exactly six lines of the fixed `export KEY="value"` template assigning the
active id, git author and committer name/email, and the ssh command carrying
the key path of the identity, with the fields inserted verbatim and unescaped. -/
theorem switch_user_writes_template (st : GusState) (id : String) (user : User)
    (h : st.users.get id = some user) :
    switch_user st id
      = ({ st with
            session :=
              some (spec_switch_script user st.config.default_sshkey_dir) },
          Except.ok ()) := by
  rw [← switch_script_eq_spec]
  simp [switch_user, h]

/-- Shared closed state in which the display name of the single user contains
a double quote. -/
def qState : GusState :=
  ⟨[⟨"u", "A\"B", "e@x", none⟩], ⟨false, [], "/keys"⟩, ⟨false, [], "/keys"⟩, none⟩

set_option maxRecDepth 8192 in
/-- Witness for C10 on closed input: the written script, spelled out; the
name of the user contains a double quote which lands unescaped between the
generated quotes. -/
theorem switch_user_writes_template_witness :
    qState.users.get "u" = some ⟨"u", "A\"B", "e@x", none⟩
    ∧ switch_user qState "u"
        = ({ qState with
              session := some (spec_switch_script ⟨"u", "A\"B", "e@x", none⟩ "/keys") },
            Except.ok ())
    ∧ spec_switch_script ⟨"u", "A\"B", "e@x", none⟩ "/keys"
        = "export GUS_USER_ID=\"u\"\nexport GIT_AUTHOR_NAME=\"A\"B\"\nexport GIT_AUTHOR_EMAIL=\"e@x\"\nexport GIT_COMMITTER_NAME=\"A\"B\"\nexport GIT_COMMITTER_EMAIL=\"e@x\"\nexport GIT_SSH_COMMAND=\"ssh -i /keys/id_u -F /dev/null\"\n" :=
  ⟨rfl,
   switch_user_writes_template qState "u" ⟨"u", "A\"B", "e@x", none⟩ rfl,
   by decide⟩

/-! ## Claim C7: the emitted setup script -/

/-- Claim C7: for every injected extra-script fragment, the emitted setup text
is exactly the guard on the well-known flag variable `GUS_LOADED_FLAG` wrapped
around the whole body (so sourcing it again after first install executes
nothing), and that body deletes any stale session file, defines the wrapper
function under the invocation name of the tool — forwarding all arguments to the
real executable, capturing the exit status, returning it without sourcing when
non-zero and sourcing the session-channel file only when zero — and ends with
the fragment verbatim. -/
theorem setup_script_guard_and_wrapper (env : ShellEnv) (extra : String) :
    get_setup_script env extra
      = guard_wrap "GUS_LOADED_FLAG"
          ("rm -f \"" ++ env.sessionPath ++ "\"\n"
            ++ wrapper_fn env.appName env.appPath env.sessionPath
            ++ extra) := by
  apply String.ext
  simp only [get_setup_script, guard_wrap, wrapper_fn, String.data_append,
    List.append_assoc]
  rfl

/-! ## Claim C6: the session-channel path -/

/-- Decimal digit characters determine their digits. -/
theorem digitChar10_inj {a b : Nat} (ha : a < 10) (hb : b < 10)
    (h : digitChar10 a = digitChar10 b) : a = b := by
  interval_cases a <;> interval_cases b <;> (revert h; decide)

/-- The fuel argument of `natDecAux` is irrelevant once it exceeds the number
being rendered. -/
theorem natDecAux_congr : ∀ (f g n : Nat), n < f → n < g →
    natDecAux f n = natDecAux g n := by
  intro f
  induction f with
  | zero => intro g n hf _; exact absurd hf (Nat.not_lt_zero n)
  | succ f ihf =>
    intro g n hf hg
    cases g with
    | zero => exact absurd hg (Nat.not_lt_zero n)
    | succ g =>
      simp only [natDecAux]
      by_cases h10 : n < 10
      · rw [if_pos h10, if_pos h10]
      · rw [if_neg h10, if_neg h10]
        have hdiv : n / 10 < n := Nat.div_lt_self (by omega) (by omega)
        rw [ihf g (n / 10) (by omega) (by omega)]

/-- A rendered number always has at least one digit. -/
theorem natDecAux_ne_nil (f n : Nat) (h : n < f) : natDecAux f n ≠ [] := by
  cases f with
  | zero => exact absurd h (Nat.not_lt_zero n)
  | succ f =>
    simp only [natDecAux]
    by_cases h10 : n < 10
    · rw [if_pos h10]; simp
    · rw [if_neg h10]; simp

/-- Decimal rendering is injective: distinct numbers have distinct decimal
strings. -/
theorem natDecimal_inj (n : Nat) : ∀ m : Nat, natDecimal n = natDecimal m → n = m := by
  induction n using Nat.strong_induction_on with
  | _ n ih =>
    intro m h
    have hl : natDecAux (n + 1) n = natDecAux (m + 1) m := congrArg String.data h
    by_cases hn : n < 10 <;> by_cases hm : m < 10
    · rw [show natDecAux (n + 1) n = [digitChar10 n] from by simp [natDecAux, hn],
        show natDecAux (m + 1) m = [digitChar10 m] from by simp [natDecAux, hm]] at hl
      simp only [List.cons.injEq, and_true] at hl
      exact digitChar10_inj hn hm hl
    · exfalso
      rw [show natDecAux (n + 1) n = [digitChar10 n] from by simp [natDecAux, hn],
        show natDecAux (m + 1) m
            = natDecAux m (m / 10) ++ [digitChar10 (m % 10)] from by
          simp [natDecAux, hm]] at hl
      have hdm : m / 10 < m := Nat.div_lt_self (by omega) (by omega)
      have hpos : 0 < (natDecAux m (m / 10)).length :=
        List.length_pos.mpr (natDecAux_ne_nil m (m / 10) (by omega))
      have hlen := congrArg List.length hl
      simp only [List.length_append, List.length_cons, List.length_nil] at hlen
      omega
    · exfalso
      rw [show natDecAux (m + 1) m = [digitChar10 m] from by simp [natDecAux, hm],
        show natDecAux (n + 1) n
            = natDecAux n (n / 10) ++ [digitChar10 (n % 10)] from by
          simp [natDecAux, hn]] at hl
      have hdn : n / 10 < n := Nat.div_lt_self (by omega) (by omega)
      have hpos : 0 < (natDecAux n (n / 10)).length :=
        List.length_pos.mpr (natDecAux_ne_nil n (n / 10) (by omega))
      have hlen := congrArg List.length hl
      simp only [List.length_append, List.length_cons, List.length_nil] at hlen
      omega
    · rw [show natDecAux (n + 1) n
            = natDecAux n (n / 10) ++ [digitChar10 (n % 10)] from by
          simp [natDecAux, hn],
        show natDecAux (m + 1) m
            = natDecAux m (m / 10) ++ [digitChar10 (m % 10)] from by
          simp [natDecAux, hm]] at hl
      obtain ⟨hpre, hlast⟩ := List.append_inj' hl (by simp)
      simp only [List.cons.injEq, and_true] at hlast
      have hmod : n % 10 = m % 10 :=
        digitChar10_inj (Nat.mod_lt _ (by omega)) (Nat.mod_lt _ (by omega)) hlast
      have hdn : n / 10 < n := Nat.div_lt_self (by omega) (by omega)
      have hdm : m / 10 < m := Nat.div_lt_self (by omega) (by omega)
      have hpre' : natDecAux (n / 10 + 1) (n / 10)
          = natDecAux (m / 10 + 1) (m / 10) := by
        rw [natDecAux_congr (n / 10 + 1) n (n / 10) (by omega) (by omega),
          natDecAux_congr (m / 10 + 1) m (m / 10) (by omega) (by omega)]
        exact hpre
      have hdiv : n / 10 = m / 10 :=
        ih (n / 10) hdn (m / 10) (congrArg String.mk hpre')
      omega

/-- Left cancellation for string append. -/
theorem strAppend_left_cancel {a b c : String} (h : a ++ b = a ++ c) : b = c := by
  apply String.ext
  have hd := congrArg String.data h
  rw [String.data_append, String.data_append] at hd
  exact List.append_cancel_left hd

/-- Right cancellation for string append. -/
theorem strAppend_right_cancel {a b c : String} (h : a ++ b = c ++ b) : a = c := by
  apply String.ext
  have hd := congrArg String.data h
  rw [String.data_append, String.data_append] at hd
  exact List.append_cancel_right hd

/-- A session file name never starts with a path separator. -/
theorem strHeadIsSlash_session (x : String) :
    strHeadIsSlash ("session" ++ x) = false := by
  have hd : ("session" ++ x).data = 's' :: ("ession".data ++ x.data) := by
    rw [String.data_append]; rfl
  simp [strHeadIsSlash, hd]

/-- Joining the same base with two relative names is injective in the name. -/
theorem pathJoin_right_inj {base s1 s2 : String}
    (h1 : strHeadIsSlash s1 = false) (h2 : strHeadIsSlash s2 = false)
    (h : pathJoin base s1 = pathJoin base s2) : s1 = s2 := by
  unfold pathJoin at h
  rw [if_neg (c := strHeadIsSlash s1 = true) (by simp [h1]),
    if_neg (c := strHeadIsSlash s2 = true) (by simp [h2])] at h
  by_cases hb : (decide (base = "") || strLastIsSlash base) = true
  · rw [if_pos hb, if_pos hb] at h
    exact strAppend_left_cancel h
  · rw [if_neg hb, if_neg hb] at h
    exact strAppend_left_cancel h

/-- Joining a nonempty base that does not end in a separator with a relative
name inserts exactly one separator. -/
theorem pathJoin_no_slash {dir file : String} (hf : strHeadIsSlash file = false)
    (hd1 : dir ≠ "") (hd2 : strLastIsSlash dir = false) :
    pathJoin dir file = dir ++ "/" ++ file := by
  unfold pathJoin
  rw [if_neg (by simp [hf]), if_neg (by simp [hd1, hd2])]

/-- The session-channel path determines the parent process id. -/
theorem get_session_script_path_injective (tmp exe : String) {p q : Nat}
    (h : get_session_script_path tmp exe p = get_session_script_path tmp exe q) :
    p = q := by
  unfold get_session_script_path at h
  rw [strAppend_assoc, strAppend_assoc] at h
  have hs := pathJoin_right_inj (strHeadIsSlash_session _)
    (strHeadIsSlash_session _) h
  exact natDecimal_inj p q (strAppend_right_cancel (strAppend_left_cancel hs))

/-- Claim C6: the session-channel path is a function of only the temp root,
the executable file name and the parent process id; the same parent id always
yields the identical path, distinct parent ids yield distinct paths, and
(whenever the components are ordinary: a relative executable name, both
components nonempty and not ending in a separator) the path is the literal
`tmp/exe/session<ppid>.sh`. -/
theorem session_path_keyed_by_parent (tmp exe : String) (p q : Nat) :
    (p = q →
        get_session_script_path tmp exe p = get_session_script_path tmp exe q)
    ∧ (p ≠ q →
        get_session_script_path tmp exe p ≠ get_session_script_path tmp exe q)
    ∧ (strHeadIsSlash exe = false → exe ≠ "" → strLastIsSlash exe = false →
        tmp ≠ "" → strLastIsSlash tmp = false →
        get_session_script_path tmp exe p
          = tmp ++ "/" ++ exe ++ "/" ++ ("session" ++ natDecimal p ++ ".sh")) := by
  refine ⟨fun hpq => by rw [hpq],
    fun hpq hc => hpq (get_session_script_path_injective tmp exe hc), ?_⟩
  intro hexh hexne hexl htmpne htmpl
  have h1 : pathJoin tmp exe = tmp ++ "/" ++ exe :=
    pathJoin_no_slash hexh htmpne htmpl
  have hexd : exe.data ≠ [] := fun hnil => hexne (String.ext hnil)
  have h2 : strLastIsSlash (tmp ++ "/" ++ exe) = false := by
    have hd : (tmp ++ "/" ++ exe).data = (tmp.data ++ ['/']) ++ exe.data := by
      rw [String.data_append, String.data_append]
    unfold strLastIsSlash at hexl ⊢
    rw [hd, List.getLast?_append_of_ne_nil _ hexd]
    exact hexl
  have h3 : tmp ++ "/" ++ exe ≠ "" := by
    intro hc
    have hd := congrArg String.data hc
    rw [String.data_append, String.data_append] at hd
    simp at hd
  have h4 : strHeadIsSlash ("session" ++ natDecimal p ++ ".sh") = false := by
    rw [strAppend_assoc]
    exact strHeadIsSlash_session _
  unfold get_session_script_path
  rw [h1, pathJoin_no_slash h4 h3 h2]

/-- Witness for C6 on closed input: the same parent id 3 twice gives one path,
parent ids 3 and 7 give different paths, and the path is the literal
`/tmp/gus/session3.sh`. -/
theorem session_path_keyed_by_parent_witness :
    (3 : Nat) ≠ 7
    ∧ get_session_script_path "/tmp" "gus" 3 ≠ get_session_script_path "/tmp" "gus" 7
    ∧ get_session_script_path "/tmp" "gus" 3
        = "/tmp" ++ "/" ++ "gus" ++ "/" ++ ("session" ++ natDecimal 3 ++ ".sh")
    ∧ get_session_script_path "/tmp" "gus" 3 = "/tmp/gus/session3.sh" :=
  ⟨by decide,
   (session_path_keyed_by_parent "/tmp" "gus" 3 7).2.1 (by decide),
   (session_path_keyed_by_parent "/tmp" "gus" 3 7).2.2 rfl (by decide) rfl
     (by decide) rfl,
   by decide⟩

end Gus
